import Mathlib

/-!
Verification of the Grafana HTTP API client wrapper (`src/grafana_api.py`).

The development shallowly embeds the Python source: JSON values become an
inductive type, Python `dict`s become association lists with Python's
insertion-order update semantics, a completed HTTP response becomes a record
of its numeric status and (decoded) body, and each client method becomes a
Lean function from the client configuration, the method arguments and the
completed response to the request it issues and the value it returns (or the
exception it raises, via `Except`).
-/

set_option autoImplicit false

/-- Decoded JSON values, as produced by Python's `json` module (numbers are
modelled as integers; the claims under study only involve integral numbers). -/
inductive JValue where
  | null
  | bool (b : Bool)
  | num (n : Int)
  | str (s : String)
  | arr (elems : List JValue)
  | obj (fields : List (String × JValue))

/-- A Python `dict` with string keys and JSON values: an insertion-ordered
association list without duplicate keys (well-formedness is stated separately
by `Dict.nodupKeys` where a proof needs it). -/
abbrev Dict := List (String × JValue)

/-- Python `d[k]`: the value stored at key `k`, if present. -/
def Dict.lookup : Dict → String → Option JValue
  | [], _ => none
  | (k0, v0) :: rest, k => if k0 = k then some v0 else Dict.lookup rest k

/-- Python `k in d`. -/
def Dict.hasKey (d : Dict) (k : String) : Bool :=
  (Dict.lookup d k).isSome

/-- Python `d[k] = v`: replace the value in place if the key exists (keeping
its position, per dict insertion-order semantics), otherwise append the new
entry at the end. -/
def Dict.set : Dict → String → JValue → Dict
  | [], k, v => [(k, v)]
  | (k0, v0) :: rest, k, v =>
      if k0 = k then (k, v) :: rest else (k0, v0) :: Dict.set rest k v

/-- Python `d.copy()`: a shallow copy; as a pure value it is the same list,
but in the heap model below it allocates a fresh cell. -/
def Dict.copy (d : Dict) : Dict := d

/-- Python `d.update(other)`: assign each entry of `other`, in order, into `d`. -/
def Dict.updateWith (d other : Dict) : Dict :=
  other.foldl (fun acc kv => Dict.set acc kv.1 kv.2) d

/-- Python `list(d.keys())`. -/
def Dict.keys (d : Dict) : List String :=
  d.map Prod.fst

/-- Well-formedness of a `Dict`: no key occurs twice (true of every dict a
Python program can construct). -/
def Dict.nodupKeys : Dict → Bool
  | [] => true
  | (k0, _) :: rest => !(Dict.hasKey rest k0) && Dict.nodupKeys rest

/-- The body of a completed HTTP response, as the wrapper observes it through
`response.content` (emptiness test) and `response.json()` (decoding). A
`json` body is non-empty (every JSON serialization has at least one byte);
an `undecodable` body is non-empty text that is not valid JSON. -/
inductive Body where
  | empty
  | json (v : JValue)
  | undecodable (raw : String)

/-- Models `len(response.content) == 0`. -/
def Body.isEmpty : Body → Bool
  | .empty => true
  | .json _ => false
  | .undecodable _ => false

/-- A completed HTTP response: numeric status code plus body. -/
structure Response where
  status : Int
  body : Body

/-- Models `response.json()`: returns the decoded value, or raises a
`JSONDecodeError` (an empty body is likewise not valid JSON). -/
def Response.json (r : Response) : Except String JValue :=
  match r.body with
  | .json v => .ok v
  | .empty => .error "JSONDecodeError"
  | .undecodable _ => .error "JSONDecodeError"

/-- Embedding of `GrafanaAPI._enrich_error_response` (src/grafana_api.py,
lines 30-42). The `message` argument is only logged in the source, so it does
not influence the returned value; exceptions escaping the routine (JSON decode
failure, or item assignment on a non-dict decoded body) are `Except.error`.
  - empty body: return `{'customStatusCode': response.status_code}`;
  - non-200 status: decode the body, inject `customStatusCode`, return it;
  - otherwise: return the decoded body unchanged. -/
def _enrich_error_response (response : Response) (message : String) :
    Except String JValue :=
  if Body.isEmpty response.body then
    .ok (.obj [("customStatusCode", .num response.status)])
  else if response.status ≠ 200 then
    match response.json with
    | .ok (.obj response_dict) =>
        .ok (.obj (Dict.set response_dict "customStatusCode" (.num response.status)))
    | .ok _ => .error "TypeError: item assignment on non-dict response"
    | .error e => .error e
  else
    let _ := message
    response.json

mutual

/-- Python `repr` of a decoded JSON value, as used for elements of containers
in `str`-conversion (container braces/quotes written via escapes). -/
def pyRepr : JValue → String
  | .null => "None"
  | .bool true => "True"
  | .bool false => "False"
  | .num n => toString n
  | .str s => "\x27" ++ s ++ "\x27"
  | .arr elems => "[" ++ pyReprList elems ++ "]"
  | .obj fields => "\x7b" ++ pyReprFields fields ++ "\x7d"

/-- Comma-separated `repr`s of the elements of a Python list. -/
def pyReprList : List JValue → String
  | [] => ""
  | [x] => pyRepr x
  | x :: xs => pyRepr x ++ ", " ++ pyReprList xs

/-- Comma-separated `repr`s of the entries of a Python dict. -/
def pyReprFields : List (String × JValue) → String
  | [] => ""
  | [(k, v)] => "\x27" ++ k ++ "\x27: " ++ pyRepr v
  | (k, v) :: kvs => "\x27" ++ k ++ "\x27: " ++ pyRepr v ++ ", " ++ pyReprFields kvs

end

/-- Python `str` of a decoded JSON value, as an f-string interpolates it
(a string interpolates without quotes; everything else as its `repr`). -/
def pyStr : JValue → String
  | .str s => s
  | v => pyRepr v

/-- The client configuration stored by `GrafanaAPI.__init__` (src/grafana_api.py,
lines 24-27); the logger is a pure side-effect channel and carries no data the
return values depend on, so it is not part of the state. -/
structure GrafanaAPI where
  url : String
  token : String
  verify : Bool

/-- An outgoing HTTP request as the wrapper builds it: method, full URL,
headers, optional JSON payload, and the TLS-verification flag. -/
structure Request where
  method : String
  url : String
  headers : List (String × String)
  jsonBody : Option JValue
  verify : Bool

/-- The authorization header attached to every request:
`{'Authorization': f'Bearer {self._token}'}`. -/
def GrafanaAPI.authHeaders (self : GrafanaAPI) : List (String × String) :=
  [("Authorization", "Bearer " ++ self.token)]

/-- Payload construction of `create_dashboard` (src/grafana_api.py, lines
46-58): copy `additional_data`, then add each optional field only when the
corresponding argument was supplied (`is not None`). -/
def create_dashboard_payload (additional_data : Dict) (folder_id : Option Int)
    (folder_uid : Option String) (message : Option String)
    (overwrite : Option Bool) : Dict :=
  let payload := Dict.copy additional_data
  let payload := match folder_id with
    | some v => Dict.set payload "folderId" (.num v)
    | none => payload
  let payload := match folder_uid with
    | some v => Dict.set payload "folderUid" (.str v)
    | none => payload
  let payload := match message with
    | some v => Dict.set payload "message" (.str v)
    | none => payload
  match overwrite with
    | some v => Dict.set payload "overwrite" (.bool v)
    | none => payload

/-- The success-message f-string of `create_dashboard` (line 67):
`f'Dashboard created with the name {additional_data["dashboard"]["title"]}.'`.
Subscripting raises `KeyError` on a missing key and `TypeError` on a
non-dict value, so the construction is fallible. -/
def create_dashboard_message (additional_data : Dict) : Except String String :=
  match Dict.lookup additional_data "dashboard" with
  | none => .error "KeyError: dashboard"
  | some (.obj dashboard) =>
      match Dict.lookup dashboard "title" with
      | none => .error "KeyError: title"
      | some title =>
          .ok ("Dashboard created with the name " ++ pyStr title ++ ".")
  | some _ => .error "TypeError: value is not subscriptable by a string key"

/-- Embedding of `GrafanaAPI.create_dashboard` (lines 45-67): build the
payload, POST it, then evaluate the success-message f-string (after the
request, since the response is already in hand, and before
`_enrich_error_response` runs, since Python evaluates arguments first). -/
def create_dashboard (self : GrafanaAPI) (additional_data : Dict)
    (folder_id : Option Int) (folder_uid : Option String)
    (message : Option String) (overwrite : Option Bool) (response : Response) :
    Request × Except String JValue :=
  let payload := create_dashboard_payload additional_data folder_id folder_uid message overwrite
  ({ method := "POST"
     url := self.url ++ "/api/dashboards/db"
     headers := self.authHeaders
     jsonBody := some (.obj payload)
     verify := self.verify },
   match create_dashboard_message additional_data with
   | .ok msg => _enrich_error_response response msg
   | .error e => .error e)

/-- Embedding of `GrafanaAPI.get_dashboard_by_uid` (lines 70-77). -/
def get_dashboard_by_uid (self : GrafanaAPI) (uid : String) (response : Response) :
    Request × Except String JValue :=
  ({ method := "GET"
     url := self.url ++ "/api/dashboards/uid/" ++ uid
     headers := self.authHeaders
     jsonBody := none
     verify := self.verify },
   _enrich_error_response response ("Dashboard with UID " ++ uid ++ " is found."))

/-- Embedding of `GrafanaAPI.delete_dashboard_by_uid` (lines 80-87). -/
def delete_dashboard_by_uid (self : GrafanaAPI) (uid : String) (response : Response) :
    Request × Except String JValue :=
  ({ method := "DELETE"
     url := self.url ++ "/api/dashboards/uid/" ++ uid
     headers := self.authHeaders
     jsonBody := none
     verify := self.verify },
   _enrich_error_response response ("Dashboard with UID " ++ uid ++ " deleted successfully."))

/-- Embedding of `GrafanaAPI.get_all_dashboards` (lines 90-97). -/
def get_all_dashboards (self : GrafanaAPI) (response : Response) :
    Request × Except String JValue :=
  ({ method := "GET"
     url := self.url ++ "/api/search?type=dash-db"
     headers := self.authHeaders
     jsonBody := none
     verify := self.verify },
   _enrich_error_response response "All dashboards are returned.")

/-- Embedding of `GrafanaAPI.get_all_datasources` (lines 100-107). -/
def get_all_datasources (self : GrafanaAPI) (response : Response) :
    Request × Except String JValue :=
  ({ method := "GET"
     url := self.url ++ "/api/datasources"
     headers := self.authHeaders
     jsonBody := none
     verify := self.verify },
   _enrich_error_response response "All datasources are returned.")

/-- Embedding of `GrafanaAPI.get_datasource_by_uid` (lines 110-117). -/
def get_datasource_by_uid (self : GrafanaAPI) (uid : String) (response : Response) :
    Request × Except String JValue :=
  ({ method := "GET"
     url := self.url ++ "/api/datasources/uid/" ++ uid
     headers := self.authHeaders
     jsonBody := none
     verify := self.verify },
   _enrich_error_response response ("Datasource with UID " ++ uid ++ " is returned."))

/-- Embedding of `GrafanaAPI.get_datasource_by_name` (lines 120-127). -/
def get_datasource_by_name (self : GrafanaAPI) (name : String) (response : Response) :
    Request × Except String JValue :=
  ({ method := "GET"
     url := self.url ++ "/api/datasources/name/" ++ name
     headers := self.authHeaders
     jsonBody := none
     verify := self.verify },
   _enrich_error_response response ("Datasource with the name " ++ name ++ " is returned."))

/-- Payload construction of `create_datasource` (lines 131-134): the four
required fields in order, with `access` defaulting to `'proxy'` when the
argument is not given (`Option.getD` models the Python default parameter),
then `payload.update(additional_data)` when the extra mapping is given. -/
def create_datasource_payload (name type_ url : String) (access : Option String)
    (additional_data : Option Dict) : Dict :=
  let payload : Dict :=
    [("name", .str name), ("type", .str type_), ("url", .str url),
     ("access", .str (access.getD "proxy"))]
  match additional_data with
  | some ad => Dict.updateWith payload ad
  | none => payload

/-- Embedding of `GrafanaAPI.create_datasource` (lines 130-143). -/
def create_datasource (self : GrafanaAPI) (name type_ url : String)
    (access : Option String) (additional_data : Option Dict) (response : Response) :
    Request × Except String JValue :=
  ({ method := "POST"
     url := self.url ++ "/api/datasources/"
     headers := self.authHeaders
     jsonBody := some (.obj (create_datasource_payload name type_ url access additional_data))
     verify := self.verify },
   _enrich_error_response response ("The datasource with the name " ++ name ++ " is created."))

/-- Embedding of `GrafanaAPI.delete_datasource_by_uid` (lines 146-153). -/
def delete_datasource_by_uid (self : GrafanaAPI) (uid : String) (response : Response) :
    Request × Except String JValue :=
  ({ method := "DELETE"
     url := self.url ++ "/api/datasources/uid/" ++ uid
     headers := self.authHeaders
     jsonBody := none
     verify := self.verify },
   _enrich_error_response response ("The datasource with UID " ++ uid ++ " is deleted."))

/-- Embedding of `GrafanaAPI.get_datasource_health_by_uid` (lines 156-163). -/
def get_datasource_health_by_uid (self : GrafanaAPI) (uid : String) (response : Response) :
    Request × Except String JValue :=
  ({ method := "GET"
     url := self.url ++ "/api/datasources/uid/" ++ uid ++ "/health"
     headers := self.authHeaders
     jsonBody := none
     verify := self.verify },
   _enrich_error_response response "Datasource health is returned.")

/-- Embedding of `GrafanaAPI.get_all_folders` (lines 166-173); `limit`
defaults to 1000. -/
def get_all_folders (self : GrafanaAPI) (limit : Option Int) (response : Response) :
    Request × Except String JValue :=
  ({ method := "GET"
     url := self.url ++ "/api/folders?limit=" ++ toString (limit.getD 1000)
     headers := self.authHeaders
     jsonBody := none
     verify := self.verify },
   _enrich_error_response response "All folders are returned.")

/-- Embedding of `GrafanaAPI.get_folder_by_uid` (lines 176-183). -/
def get_folder_by_uid (self : GrafanaAPI) (uid : String) (response : Response) :
    Request × Except String JValue :=
  ({ method := "GET"
     url := self.url ++ "/api/folders/" ++ uid
     headers := self.authHeaders
     jsonBody := none
     verify := self.verify },
   _enrich_error_response response ("The folder with UID " ++ uid ++ " is returned."))

/-- Payload construction of `create_folder` (lines 187-192): start from an
empty dict, add `uid` only when supplied, then always set `title`. -/
def create_folder_payload (title : String) (uid : Option String) : Dict :=
  let payload : Dict := []
  let payload := match uid with
    | some u => Dict.set payload "uid" (.str u)
    | none => payload
  Dict.set payload "title" (.str title)

/-- Embedding of `GrafanaAPI.create_folder` (lines 186-201). -/
def create_folder (self : GrafanaAPI) (title : String) (uid : Option String)
    (response : Response) : Request × Except String JValue :=
  ({ method := "POST"
     url := self.url ++ "/api/folders"
     headers := self.authHeaders
     jsonBody := some (.obj (create_folder_payload title uid))
     verify := self.verify },
   _enrich_error_response response ("A folder with the title " ++ title ++ " is created."))

/-- Embedding of `GrafanaAPI.delete_folder_by_uid` (lines 204-211). -/
def delete_folder_by_uid (self : GrafanaAPI) (uid : String) (response : Response) :
    Request × Except String JValue :=
  ({ method := "DELETE"
     url := self.url ++ "/api/folders/" ++ uid
     headers := self.authHeaders
     jsonBody := none
     verify := self.verify },
   _enrich_error_response response ("The folder with UID " ++ uid ++ " is deleted."))

/-- Helper for stating response-shape properties: a completed response body
that is either empty (`none`) or decodes to a JSON mapping (`some d`). -/
def Body.ofObj : Option Dict → Body
  | none => .empty
  | some d => .json (.obj d)

/-- One invocation of a public client method, with its arguments (optional
Python parameters are `Option`, `none` meaning the argument was not given). -/
inductive ApiCall where
  | createDashboard (additional_data : Dict) (folder_id : Option Int)
      (folder_uid : Option String) (message : Option String) (overwrite : Option Bool)
  | getDashboardByUid (uid : String)
  | deleteDashboardByUid (uid : String)
  | getAllDashboards
  | getAllDatasources
  | getDatasourceByUid (uid : String)
  | getDatasourceByName (name : String)
  | createDatasource (name type_ url : String) (access : Option String)
      (additional_data : Option Dict)
  | deleteDatasourceByUid (uid : String)
  | getDatasourceHealthByUid (uid : String)
  | getAllFolders (limit : Option Int)
  | getFolderByUid (uid : String)
  | createFolder (title : String) (uid : Option String)
  | deleteFolderByUid (uid : String)

/-- Whether the success-message f-string of the invoked method evaluates
without raising; only `create_dashboard` interpolates a fallible subscript
expression, every other method uses a literal or plain string arguments. -/
def ApiCall.messageBuilds : ApiCall → Bool
  | .createDashboard ad _ _ _ _ =>
      match create_dashboard_message ad with
      | .ok _ => true
      | .error _ => false
  | _ => true

/-- The observable outcome of one client-method invocation: the client state
after the call, the HTTP request that was issued, and the returned value
(or raised exception). -/
structure CallResult where
  selfAfter : GrafanaAPI
  request : Request
  result : Except String JValue

/-- Uniform dispatcher over the fourteen public methods. Each branch returns
`self` unchanged as the post-state: no method body in src/grafana_api.py
assigns to any attribute of `self`. -/
def GrafanaAPI.call (self : GrafanaAPI) (c : ApiCall) (response : Response) :
    CallResult :=
  match c with
  | .createDashboard ad fid fuid m ow =>
      ⟨self, (create_dashboard self ad fid fuid m ow response).1,
             (create_dashboard self ad fid fuid m ow response).2⟩
  | .getDashboardByUid uid =>
      ⟨self, (get_dashboard_by_uid self uid response).1,
             (get_dashboard_by_uid self uid response).2⟩
  | .deleteDashboardByUid uid =>
      ⟨self, (delete_dashboard_by_uid self uid response).1,
             (delete_dashboard_by_uid self uid response).2⟩
  | .getAllDashboards =>
      ⟨self, (get_all_dashboards self response).1,
             (get_all_dashboards self response).2⟩
  | .getAllDatasources =>
      ⟨self, (get_all_datasources self response).1,
             (get_all_datasources self response).2⟩
  | .getDatasourceByUid uid =>
      ⟨self, (get_datasource_by_uid self uid response).1,
             (get_datasource_by_uid self uid response).2⟩
  | .getDatasourceByName name =>
      ⟨self, (get_datasource_by_name self name response).1,
             (get_datasource_by_name self name response).2⟩
  | .createDatasource name type_ url access ad =>
      ⟨self, (create_datasource self name type_ url access ad response).1,
             (create_datasource self name type_ url access ad response).2⟩
  | .deleteDatasourceByUid uid =>
      ⟨self, (delete_datasource_by_uid self uid response).1,
             (delete_datasource_by_uid self uid response).2⟩
  | .getDatasourceHealthByUid uid =>
      ⟨self, (get_datasource_health_by_uid self uid response).1,
             (get_datasource_health_by_uid self uid response).2⟩
  | .getAllFolders limit =>
      ⟨self, (get_all_folders self limit response).1,
             (get_all_folders self limit response).2⟩
  | .getFolderByUid uid =>
      ⟨self, (get_folder_by_uid self uid response).1,
             (get_folder_by_uid self uid response).2⟩
  | .createFolder title uid =>
      ⟨self, (create_folder self title uid response).1,
             (create_folder self title uid response).2⟩
  | .deleteFolderByUid uid =>
      ⟨self, (delete_folder_by_uid self uid response).1,
             (delete_folder_by_uid self uid response).2⟩

/-- A micro-heap of Python dict objects, for stating aliasing/mutation
properties: cells are addressed by allocation index, and every dict-valued
Python variable is a reference into the heap. -/
structure DictHeap where
  cells : List Dict

/-- A reference to a dict object. -/
abbrev DictRef := Nat

/-- Dereference (reading an unallocated cell yields an empty dict; the
theorems only dereference allocated cells). -/
def DictHeap.get (h : DictHeap) (r : DictRef) : Dict :=
  h.cells.getD r []

/-- Overwrite the object stored in one cell. -/
def DictHeap.setCell (h : DictHeap) (r : DictRef) (d : Dict) : DictHeap :=
  ⟨h.cells.set r d⟩

/-- Allocate a fresh dict object, returning the new heap and its reference. -/
def DictHeap.alloc (h : DictHeap) (d : Dict) : DictHeap × DictRef :=
  (⟨h.cells ++ [d]⟩, h.cells.length)

/-- Python `d[k] = v` on the object behind reference `r`. -/
def DictHeap.setItem (h : DictHeap) (r : DictRef) (k : String) (v : JValue) :
    DictHeap :=
  h.setCell r (Dict.set (h.get r) k v)

/-- Heap-level model of the payload construction of `create_dashboard`
(lines 46-58): `payload = additional_data.copy()` allocates a fresh object
holding a copy of the dict behind `additional_data`, and the four conditional
item assignments mutate that fresh object only. Returns the final heap and
the reference bound to the local variable `payload`. -/
def create_dashboard_heap (h : DictHeap) (additional_data : DictRef)
    (folder_id : Option Int) (folder_uid : Option String)
    (message : Option String) (overwrite : Option Bool) : DictHeap × DictRef :=
  let alloced := h.alloc (Dict.copy (h.get additional_data))
  let h := alloced.1
  let payload := alloced.2
  let h := match folder_id with
    | some v => h.setItem payload "folderId" (.num v)
    | none => h
  let h := match folder_uid with
    | some v => h.setItem payload "folderUid" (.str v)
    | none => h
  let h := match message with
    | some v => h.setItem payload "message" (.str v)
    | none => h
  let h := match overwrite with
    | some v => h.setItem payload "overwrite" (.bool v)
    | none => h
  (h, payload)

/-- Heap-level model of the payload construction of `create_datasource`
(lines 131-134): the dict literal allocates a fresh object, and
`payload.update(additional_data)` reads the dict behind `additional_data`
while mutating the fresh object only. -/
def create_datasource_heap (h : DictHeap) (name type_ url : String)
    (access : Option String) (additional_data : Option DictRef) :
    DictHeap × DictRef :=
  let alloced := h.alloc
    [("name", .str name), ("type", .str type_), ("url", .str url),
     ("access", .str (access.getD "proxy"))]
  let h := alloced.1
  let payload := alloced.2
  let h := match additional_data with
    | some r => h.setCell payload (Dict.updateWith (h.get payload) (h.get r))
    | none => h
  (h, payload)

/-! Helper lemmas about the dict model. -/

theorem Dict.lookup_set_self (d : Dict) (k : String) (v : JValue) :
    Dict.lookup (Dict.set d k v) k = some v := by
  induction d with
  | nil => simp [Dict.set, Dict.lookup]
  | cons kv rest ih =>
      obtain ⟨k0, v0⟩ := kv
      by_cases hk : k0 = k
      · simp [Dict.set, hk, Dict.lookup]
      · simp [Dict.set, hk, Dict.lookup, ih]

theorem Dict.lookup_set_ne (d : Dict) (k k' : String) (v : JValue)
    (hne : k' ≠ k) : Dict.lookup (Dict.set d k v) k' = Dict.lookup d k' := by
  induction d with
  | nil => simp [Dict.set, Dict.lookup, Ne.symm hne]
  | cons kv rest ih =>
      obtain ⟨k0, v0⟩ := kv
      by_cases hk : k0 = k
      · subst hk
        simp [Dict.set, Dict.lookup, Ne.symm hne]
      · simp [Dict.set, hk, Dict.lookup, ih]

theorem Dict.hasKey_set_self (d : Dict) (k : String) (v : JValue) :
    Dict.hasKey (Dict.set d k v) k = true := by
  simp [Dict.hasKey, Dict.lookup_set_self]

theorem Dict.hasKey_set_ne (d : Dict) (k k' : String) (v : JValue)
    (hne : k' ≠ k) : Dict.hasKey (Dict.set d k v) k' = Dict.hasKey d k' := by
  simp [Dict.hasKey, Dict.lookup_set_ne d k k' v hne]

theorem Dict.hasKey_set_of_hasKey (d : Dict) (k k' : String) (v : JValue)
    (h : Dict.hasKey d k' = true) :
    Dict.hasKey (Dict.set d k v) k' = true := by
  by_cases hk : k' = k
  · subst hk; exact Dict.hasKey_set_self d k' v
  · rw [Dict.hasKey_set_ne d k k' v hk]; exact h

theorem Dict.updateWith_cons (d : Dict) (k : String) (v : JValue)
    (rest : Dict) :
    Dict.updateWith d ((k, v) :: rest) = Dict.updateWith (Dict.set d k v) rest :=
  rfl

theorem Dict.lookup_updateWith_of_not_hasKey (d a : Dict) (k : String)
    (h : Dict.hasKey a k = false) :
    Dict.lookup (Dict.updateWith d a) k = Dict.lookup d k := by
  induction a generalizing d with
  | nil => rfl
  | cons kv rest ih =>
      obtain ⟨k0, v0⟩ := kv
      by_cases hk : k0 = k
      · exfalso
        simp [Dict.hasKey, Dict.lookup, hk] at h
      · have h' : Dict.hasKey rest k = false := by
          simpa [Dict.hasKey, Dict.lookup, hk] using h
        rw [Dict.updateWith_cons, ih (Dict.set d k0 v0) h',
          Dict.lookup_set_ne d k0 k v0 (fun hc => hk hc.symm)]

theorem Dict.lookup_updateWith_of_hasKey (d a : Dict) (k : String)
    (hnd : Dict.nodupKeys a = true) (h : Dict.hasKey a k = true) :
    Dict.lookup (Dict.updateWith d a) k = Dict.lookup a k := by
  induction a generalizing d with
  | nil => simp [Dict.hasKey, Dict.lookup] at h
  | cons kv rest ih =>
      obtain ⟨k0, v0⟩ := kv
      have hnd1 : Dict.hasKey rest k0 = false := by
        simp [Dict.nodupKeys] at hnd
        exact hnd.1
      have hnd2 : Dict.nodupKeys rest = true := by
        simp [Dict.nodupKeys] at hnd
        exact hnd.2
      by_cases hk : k0 = k
      · subst hk
        rw [Dict.updateWith_cons,
          Dict.lookup_updateWith_of_not_hasKey (Dict.set d k0 v0) rest k0 hnd1,
          Dict.lookup_set_self]
        simp [Dict.lookup]
      · have h' : Dict.hasKey rest k = true := by
          simpa [Dict.hasKey, Dict.lookup, hk] using h
        rw [Dict.updateWith_cons, ih (Dict.set d k0 v0) hnd2 h']
        simp [Dict.lookup, hk]

/-! Helper lemmas about the dict heap. -/

theorem DictHeap.get_alloc_fst_of_lt (h : DictHeap) (d : Dict) (r : DictRef)
    (hr : r < h.cells.length) : (h.alloc d).1.get r = h.get r := by
  simp [DictHeap.alloc, DictHeap.get, List.getD, List.getElem?_append_left hr]

theorem DictHeap.get_setCell_ne (h : DictHeap) (r r' : DictRef) (d : Dict)
    (hne : r ≠ r') : (h.setCell r' d).get r = h.get r := by
  simp [DictHeap.setCell, DictHeap.get, List.getD]
  rw [List.getElem?_set_ne (Ne.symm hne)]

theorem DictHeap.get_setItem_ne (h : DictHeap) (r r' : DictRef) (k : String)
    (v : JValue) (hne : r ≠ r') : (h.setItem r' k v).get r = h.get r :=
  DictHeap.get_setCell_ne h r r' _ hne

/-- Claim C1 is false of the code: for an empty body the routine returns a
mapping whose only key is `customStatusCode`, not `statusCode`. Concretely, at
status 200 with an empty body the result is `{customStatusCode: 200}`, which
differs from the mapping `{statusCode: 200}` the claim requires. -/
theorem C1_statusCode_key_counterexample :
    _enrich_error_response ⟨200, .empty⟩ "ok" =
      .ok (.obj [("customStatusCode", .num 200)]) ∧
    (Except.ok (.obj [("customStatusCode", .num 200)]) : Except String JValue) ≠
      .ok (.obj [("statusCode", .num 200)]) := by
  refine ⟨rfl, ?_⟩
  intro hcontra
  simp at hcontra

/-- Claim C1, amended: for every completed HTTP response whose body is empty
(zero bytes), the normalization routine returns a result equal to exactly
`{customStatusCode: <numeric HTTP status>}` — a mapping whose only key is the
status-code field, which is named `customStatusCode` — for every status value
including 200. -/
theorem C1_empty_body_result (status : Int) (message : String) :
    _enrich_error_response ⟨status, .empty⟩ message =
      .ok (.obj [("customStatusCode", .num status)]) := rfl

/-- Claim C2: for every completed response with status not equal to 200 and a
non-empty JSON-decodable body (a mapping `d`), the routine returns `d` with
`customStatusCode` set to the response status; the `customStatusCode` entry of
the result holds the status, every key other than `customStatusCode` keeps the
value it has in `d`, and no key of `d` is removed. -/
theorem C2_non200_enriched (status : Int) (d : Dict) (message : String)
    (h : status ≠ 200) :
    _enrich_error_response ⟨status, .json (.obj d)⟩ message =
      .ok (.obj (Dict.set d "customStatusCode" (.num status))) ∧
    Dict.lookup (Dict.set d "customStatusCode" (.num status)) "customStatusCode" =
      some (.num status) ∧
    (∀ k, k ≠ "customStatusCode" →
      Dict.lookup (Dict.set d "customStatusCode" (.num status)) k =
        Dict.lookup d k) ∧
    (∀ k, Dict.hasKey d k = true →
      Dict.hasKey (Dict.set d "customStatusCode" (.num status)) k = true) := by
  refine ⟨?_, Dict.lookup_set_self d _ _, ?_, ?_⟩
  · simp [_enrich_error_response, Body.isEmpty, Response.json, h]
  · intro k hk
    exact Dict.lookup_set_ne d _ k _ hk
  · intro k hk
    exact Dict.hasKey_set_of_hasKey d _ k _ hk

/-- Witness for C2 at status 404 and body `{"message": "Not found"}`. -/
theorem C2_non200_enriched_witness :
    (404 : Int) ≠ 200 ∧
    (_enrich_error_response ⟨404, .json (.obj [("message", .str "Not found")])⟩ "m" =
      .ok (.obj [("message", .str "Not found"), ("customStatusCode", .num 404)]) ∧
    Dict.lookup [("message", JValue.str "Not found"), ("customStatusCode", JValue.num 404)]
      "customStatusCode" = some (.num 404) ∧
    (∀ k, k ≠ "customStatusCode" →
      Dict.lookup [("message", JValue.str "Not found"), ("customStatusCode", JValue.num 404)] k =
        Dict.lookup [("message", JValue.str "Not found")] k) ∧
    (∀ k, Dict.hasKey [("message", JValue.str "Not found")] k = true →
      Dict.hasKey [("message", JValue.str "Not found"), ("customStatusCode", JValue.num 404)] k = true)) :=
  ⟨by decide, C2_non200_enriched 404 [("message", .str "Not found")] "m" (by decide)⟩

/-- Claim C3: for every completed response with status exactly 200 and a
non-empty JSON-decodable body that is a mapping, the routine returns the
decoded mapping verbatim: nothing injected, altered or removed. -/
theorem C3_success_body_verbatim (d : Dict) (message : String) :
    _enrich_error_response ⟨200, .json (.obj d)⟩ message = .ok (.obj d) := rfl

/-- Claim C4: a client built with base URL `https://grafana.example.com` and
token `abc123`, asked for the dashboard with uid `xyz`, issues
`GET https://grafana.example.com/api/dashboards/uid/xyz` with header
`Authorization: Bearer abc123`; a 200 response with body
`{"id":1,"uid":"xyz"}` yields that mapping verbatim, and a 404 response with
body `{"message":"Not found"}` yields
`{"message":"Not found","customStatusCode":404}`. -/
theorem C4_get_dashboard_scenario :
    get_dashboard_by_uid ⟨"https://grafana.example.com", "abc123", true⟩ "xyz"
        ⟨200, .json (.obj [("id", .num 1), ("uid", .str "xyz")])⟩ =
      ({ method := "GET"
         url := "https://grafana.example.com/api/dashboards/uid/xyz"
         headers := [("Authorization", "Bearer abc123")]
         jsonBody := none
         verify := true },
       .ok (.obj [("id", .num 1), ("uid", .str "xyz")])) ∧
    (get_dashboard_by_uid ⟨"https://grafana.example.com", "abc123", true⟩ "xyz"
        ⟨404, .json (.obj [("message", .str "Not found")])⟩).2 =
      .ok (.obj [("message", .str "Not found"), ("customStatusCode", .num 404)]) := by
  constructor <;> rfl

/-- Claim C5 is false as stated: the payload starts as a copy of
`additional_data`, so a `folderId` key already present there appears in the
outgoing payload even though the caller did not supply the `folder_id`
argument. Concretely, calling create-dashboard with
`additional_data = {"dashboard": {"title": "t"}, "folderId": 5}` and no
optional arguments produces a payload containing the key `folderId` while
`folder_id` was not supplied. -/
theorem C5_preexisting_key_counterexample :
    Dict.hasKey
      (create_dashboard_payload
        [("dashboard", .obj [("title", .str "t")]), ("folderId", .num 5)]
        none none none none)
      "folderId" = true ∧
    (none : Option Int).isSome = false := by
  exact ⟨rfl, rfl⟩

/-- Claim C5, amended: for every call to create-dashboard whose
`additional_data` mapping contains none of the four optional keys itself,
each of `folderId`, `folderUid`, `message`, `overwrite` appears as a key in
the outgoing payload if and only if the caller supplied the corresponding
argument (with a non-None value); an omitted argument produces no key at all,
not a key with a null value. -/
theorem C5_optional_fields_iff_supplied (ad : Dict) (folder_id : Option Int)
    (folder_uid : Option String) (message : Option String)
    (overwrite : Option Bool)
    (h1 : Dict.hasKey ad "folderId" = false)
    (h2 : Dict.hasKey ad "folderUid" = false)
    (h3 : Dict.hasKey ad "message" = false)
    (h4 : Dict.hasKey ad "overwrite" = false) :
    Dict.hasKey (create_dashboard_payload ad folder_id folder_uid message overwrite)
      "folderId" = folder_id.isSome ∧
    Dict.hasKey (create_dashboard_payload ad folder_id folder_uid message overwrite)
      "folderUid" = folder_uid.isSome ∧
    Dict.hasKey (create_dashboard_payload ad folder_id folder_uid message overwrite)
      "message" = message.isSome ∧
    Dict.hasKey (create_dashboard_payload ad folder_id folder_uid message overwrite)
      "overwrite" = overwrite.isSome := by
  cases folder_id <;> cases folder_uid <;> cases message <;> cases overwrite <;>
    simp [create_dashboard_payload, Dict.copy, Dict.hasKey_set_self,
      Dict.hasKey_set_ne, h1, h2, h3, h4]

/-- Witness for the amended C5: `additional_data = {"dashboard": {"title": "t"}}`,
`folder_id = 3` and `message = "m"` supplied, `folder_uid` and `overwrite`
omitted. -/
theorem C5_optional_fields_iff_supplied_witness :
    Dict.hasKey [("dashboard", JValue.obj [("title", JValue.str "t")])] "folderId" = false ∧
    Dict.hasKey [("dashboard", JValue.obj [("title", JValue.str "t")])] "folderUid" = false ∧
    Dict.hasKey [("dashboard", JValue.obj [("title", JValue.str "t")])] "message" = false ∧
    Dict.hasKey [("dashboard", JValue.obj [("title", JValue.str "t")])] "overwrite" = false ∧
    (Dict.hasKey (create_dashboard_payload [("dashboard", JValue.obj [("title", JValue.str "t")])]
      (some 3) none (some "m") none) "folderId" = (some (3 : Int)).isSome ∧
    Dict.hasKey (create_dashboard_payload [("dashboard", JValue.obj [("title", JValue.str "t")])]
      (some 3) none (some "m") none) "folderUid" = (none : Option String).isSome ∧
    Dict.hasKey (create_dashboard_payload [("dashboard", JValue.obj [("title", JValue.str "t")])]
      (some 3) none (some "m") none) "message" = (some "m").isSome ∧
    Dict.hasKey (create_dashboard_payload [("dashboard", JValue.obj [("title", JValue.str "t")])]
      (some 3) none (some "m") none) "overwrite" = (none : Option Bool).isSome) :=
  ⟨rfl, rfl, rfl, rfl,
   C5_optional_fields_iff_supplied [("dashboard", .obj [("title", .str "t")])]
     (some 3) none (some "m") none rfl rfl rfl rfl⟩

/-- Claim C6: the create-datasource payload's `access` field equals `"proxy"`
when the `access` argument is not given and the extra-fields mapping (when
given at all) has no `access` entry; and for each of the four required keys
(`name`, `type`, `url`, `access`), an entry for that key in the extra-fields
mapping (a well-formed dict, no duplicate keys) replaces the earlier value in
the payload. -/
theorem C6_access_default_and_override (name type_ url : String)
    (access : Option String) (a : Dict) (hnd : Dict.nodupKeys a = true) :
    (Dict.hasKey a "access" = false →
      Dict.lookup (create_datasource_payload name type_ url none (some a))
        "access" = some (.str "proxy")) ∧
    Dict.lookup (create_datasource_payload name type_ url none none) "access" =
      some (.str "proxy") ∧
    (∀ k, (k = "name" ∨ k = "type" ∨ k = "url" ∨ k = "access") →
      Dict.hasKey a k = true →
      Dict.lookup (create_datasource_payload name type_ url access (some a)) k =
        Dict.lookup a k) := by
  refine ⟨?_, ?_, ?_⟩
  · intro h
    show Dict.lookup (Dict.updateWith _ a) "access" = some (.str "proxy")
    rw [Dict.lookup_updateWith_of_not_hasKey _ a "access" h]
    simp [Dict.lookup]
  · simp [create_datasource_payload, Dict.lookup]
  · intro k _ hk
    show Dict.lookup (Dict.updateWith _ a) k = Dict.lookup a k
    exact Dict.lookup_updateWith_of_hasKey _ a k hnd hk

/-- Witness for C6: extra fields `{"url": "http://x", "access": "direct"}`
override the defaults. -/
theorem C6_access_default_and_override_witness :
    Dict.nodupKeys [("url", JValue.str "http://x"), ("access", JValue.str "direct")] = true ∧
    ((Dict.hasKey [("url", JValue.str "http://x"), ("access", JValue.str "direct")] "access" = false →
      Dict.lookup (create_datasource_payload "n" "t" "u" none
        (some [("url", JValue.str "http://x"), ("access", JValue.str "direct")]))
        "access" = some (.str "proxy")) ∧
    Dict.lookup (create_datasource_payload "n" "t" "u" none none) "access" =
      some (.str "proxy") ∧
    (∀ k, (k = "name" ∨ k = "type" ∨ k = "url" ∨ k = "access") →
      Dict.hasKey [("url", JValue.str "http://x"), ("access", JValue.str "direct")] k = true →
      Dict.lookup (create_datasource_payload "n" "t" "u" (some "proxy")
        (some [("url", JValue.str "http://x"), ("access", JValue.str "direct")])) k =
        Dict.lookup [("url", JValue.str "http://x"), ("access", JValue.str "direct")] k)) :=
  ⟨rfl, C6_access_default_and_override "n" "t" "u" (some "proxy")
    [("url", .str "http://x"), ("access", .str "direct")] rfl⟩

/-- Structural fact about allocation: the fresh reference is the previous
heap size. -/
theorem DictHeap.alloc_snd (h : DictHeap) (d : Dict) :
    (h.alloc d).2 = h.cells.length := rfl

/-- The normalization routine, on any completed response whose body is empty
or decodes to a JSON mapping, returns a mapping (never an exception), and
that mapping carries the `customStatusCode` key whenever the body was empty
or the status was not 200. -/
theorem enrich_returns_normalized (status : Int) (b : Option Dict)
    (message : String) :
    ∃ d, _enrich_error_response ⟨status, Body.ofObj b⟩ message = .ok (.obj d) ∧
      ((b = none ∨ status ≠ 200) → Dict.hasKey d "customStatusCode" = true) := by
  cases b with
  | none =>
      refine ⟨[("customStatusCode", .num status)], rfl, fun _ => ?_⟩
      simp [Dict.hasKey, Dict.lookup]
  | some d =>
      by_cases hs : status = 200
      · subst hs
        refine ⟨d, rfl, ?_⟩
        rintro (hc | hc)
        · cases hc
        · exact absurd rfl hc
      · refine ⟨Dict.set d "customStatusCode" (.num status), ?_,
          fun _ => Dict.hasKey_set_self d _ _⟩
        simp [_enrich_error_response, Body.ofObj, Body.isEmpty, Response.json, hs]

/-- Claim C7 is false as stated, on two counts. First, `create_dashboard`,
given a completed 200 response with the decodable body `{}`, raises a
`KeyError` while building its success message (the response body being
empty-or-decodable does not prevent it), instead of returning a normalized
mapping. Second, a non-200 response whose non-empty body decodes to a JSON
value that is not a mapping (here, the array `[]` on a 500) makes the
normalization routine raise a `TypeError` at the `customStatusCode` item
assignment. -/
theorem C7_raises_counterexample :
    (GrafanaAPI.call ⟨"https://g", "t", true⟩
        (.createDashboard [] none none none none)
        ⟨200, .json (.obj [])⟩).result = .error "KeyError: dashboard" ∧
    (GrafanaAPI.call ⟨"https://g", "t", true⟩ (.getDashboardByUid "xyz")
        ⟨500, .json (.arr [])⟩).result =
      .error "TypeError: item assignment on non-dict response" := ⟨rfl, rfl⟩

/-- Claim C7, amended: for every completed response whose body is empty or
decodes to a JSON mapping, every operation whose success-message construction
succeeds (only create-dashboard's can fail, when
`additional_data["dashboard"]["title"]` does not exist) returns the single
normalized mapping and does not raise; HTTP-level failures (non-200 status or
empty body) are surfaced as data carrying the `customStatusCode` field, never
through a thrown-error channel. -/
theorem C7_no_raise_normalized (self : GrafanaAPI) (c : ApiCall) (status : Int)
    (b : Option Dict) (hmsg : ApiCall.messageBuilds c = true) :
    ∃ d, (GrafanaAPI.call self c ⟨status, Body.ofObj b⟩).result = .ok (.obj d) ∧
      ((b = none ∨ status ≠ 200) → Dict.hasKey d "customStatusCode" = true) := by
  cases c with
  | createDashboard ad fid fuid m ow =>
      cases hm : create_dashboard_message ad with
      | ok msg =>
          have h := enrich_returns_normalized status b msg
          simpa [GrafanaAPI.call, create_dashboard, hm] using h
      | error e => simp [ApiCall.messageBuilds, hm] at hmsg
  | getDashboardByUid uid =>
      exact enrich_returns_normalized status b ("Dashboard with UID " ++ uid ++ " is found.")
  | deleteDashboardByUid uid =>
      exact enrich_returns_normalized status b ("Dashboard with UID " ++ uid ++ " deleted successfully.")
  | getAllDashboards => exact enrich_returns_normalized status b "All dashboards are returned."
  | getAllDatasources => exact enrich_returns_normalized status b "All datasources are returned."
  | getDatasourceByUid uid =>
      exact enrich_returns_normalized status b ("Datasource with UID " ++ uid ++ " is returned.")
  | getDatasourceByName name =>
      exact enrich_returns_normalized status b ("Datasource with the name " ++ name ++ " is returned.")
  | createDatasource name type_ url access ad =>
      exact enrich_returns_normalized status b ("The datasource with the name " ++ name ++ " is created.")
  | deleteDatasourceByUid uid =>
      exact enrich_returns_normalized status b ("The datasource with UID " ++ uid ++ " is deleted.")
  | getDatasourceHealthByUid uid =>
      exact enrich_returns_normalized status b "Datasource health is returned."
  | getAllFolders limit => exact enrich_returns_normalized status b "All folders are returned."
  | getFolderByUid uid =>
      exact enrich_returns_normalized status b ("The folder with UID " ++ uid ++ " is returned.")
  | createFolder title uid =>
      exact enrich_returns_normalized status b ("A folder with the title " ++ title ++ " is created.")
  | deleteFolderByUid uid =>
      exact enrich_returns_normalized status b ("The folder with UID " ++ uid ++ " is deleted.")

/-- Witness for the amended C7: listing datasources against a 500 response
with an empty body yields a mapping carrying `customStatusCode`. -/
theorem C7_no_raise_normalized_witness :
    ApiCall.messageBuilds .getAllDatasources = true ∧
    (∃ d, (GrafanaAPI.call ⟨"u", "t", true⟩ .getAllDatasources
        ⟨500, Body.ofObj none⟩).result = .ok (.obj d) ∧
      (((none : Option Dict) = none ∨ (500 : Int) ≠ 200) →
        Dict.hasKey d "customStatusCode" = true)) :=
  ⟨rfl, C7_no_raise_normalized ⟨"u", "t", true⟩ .getAllDatasources 500 none rfl⟩

/-- Claim C8: every operation, on every input and every completed response,
leaves the client's configuration fields (base URL, bearer token, TLS-verify
flag) unchanged: the state after any call equals the state before it. -/
theorem C8_config_read_only (self : GrafanaAPI) (c : ApiCall)
    (response : Response) :
    (GrafanaAPI.call self c response).selfAfter = self := by
  cases c <;> rfl

/-- Claim C9: neither create-dashboard nor create-datasource mutates the
caller-supplied `additional_data` dict object: in the heap model of the
payload construction, the cell behind the caller's reference holds the same
dict after the call as before it (create-dashboard copies the dict into a
fresh cell before its item assignments; create-datasource only reads it while
updating a freshly allocated payload). -/
theorem C9_additional_data_not_mutated (heap : DictHeap) (adRef : DictRef)
    (folder_id : Option Int) (folder_uid : Option String)
    (message : Option String) (overwrite : Option Bool)
    (name type_ url : String) (access : Option String)
    (h : adRef < heap.cells.length) :
    (create_dashboard_heap heap adRef folder_id folder_uid message overwrite).1.get
      adRef = heap.get adRef ∧
    (create_datasource_heap heap name type_ url access (some adRef)).1.get
      adRef = heap.get adRef := by
  have hne : adRef ≠ heap.cells.length := Nat.ne_of_lt h
  constructor
  · cases folder_id <;> cases folder_uid <;> cases message <;> cases overwrite <;>
      simp [create_dashboard_heap, DictHeap.alloc_snd, DictHeap.get_setItem_ne,
        DictHeap.get_alloc_fst_of_lt, hne, h]
  · simp [create_datasource_heap, DictHeap.alloc_snd, DictHeap.get_setCell_ne,
      DictHeap.get_alloc_fst_of_lt, hne, h]

/-- Witness for C9: one allocated dict `{"a": "b"}` at address 0, passed as
`additional_data` to both constructions. -/
theorem C9_additional_data_not_mutated_witness :
    0 < (DictHeap.mk [[("a", JValue.str "b")]]).cells.length ∧
    ((create_dashboard_heap (DictHeap.mk [[("a", JValue.str "b")]]) 0
        (some 1) none none (some true)).1.get 0 =
      (DictHeap.mk [[("a", JValue.str "b")]]).get 0 ∧
    (create_datasource_heap (DictHeap.mk [[("a", JValue.str "b")]]) "n" "t" "u"
        none (some 0)).1.get 0 =
      (DictHeap.mk [[("a", JValue.str "b")]]).get 0) :=
  ⟨by decide,
   C9_additional_data_not_mutated (DictHeap.mk [[("a", JValue.str "b")]]) 0
     (some 1) none none (some true) "n" "t" "u" none (by decide)⟩

/-- Claim C10: when `additional_data` lacks a `dashboard` key, or its
`dashboard` entry is a mapping lacking a `title` key, create-dashboard raises
a key-lookup error for every response status — the request has already been
sent (the outgoing request is built and returned unchanged), but no
normalized result is produced, because the success-message f-string indexes
`additional_data["dashboard"]["title"]` unconditionally. -/
theorem C10_missing_title_raises (self : GrafanaAPI) (ad : Dict)
    (folder_id : Option Int) (folder_uid : Option String)
    (message : Option String) (overwrite : Option Bool) (response : Response)
    (h : Dict.lookup ad "dashboard" = none ∨
      ∃ d, Dict.lookup ad "dashboard" = some (.obj d) ∧
        Dict.lookup d "title" = none) :
    (∃ e, (create_dashboard self ad folder_id folder_uid message overwrite
        response).2 = .error e) ∧
    (create_dashboard self ad folder_id folder_uid message overwrite
        response).1 =
      { method := "POST"
        url := self.url ++ "/api/dashboards/db"
        headers := self.authHeaders
        jsonBody := some (.obj (create_dashboard_payload ad folder_id
          folder_uid message overwrite))
        verify := self.verify } := by
  constructor
  · rcases h with h | ⟨d, hd, ht⟩
    · exact ⟨"KeyError: dashboard",
        by simp [create_dashboard, create_dashboard_message, h]⟩
    · exact ⟨"KeyError: title",
        by simp [create_dashboard, create_dashboard_message, hd, ht]⟩
  · rfl

/-- Witness for C10: `additional_data = {"dashboard": {}}` (a dashboard
mapping without a title), against a completed 200 response with body `{}`. -/
theorem C10_missing_title_raises_witness :
    (Dict.lookup [("dashboard", JValue.obj [])] "dashboard" = none ∨
      ∃ d, Dict.lookup [("dashboard", JValue.obj [])] "dashboard" =
          some (.obj d) ∧ Dict.lookup d "title" = none) ∧
    ((∃ e, (create_dashboard ⟨"u", "t", true⟩ [("dashboard", JValue.obj [])]
        none none none none ⟨200, .json (.obj [])⟩).2 = .error e) ∧
    (create_dashboard ⟨"u", "t", true⟩ [("dashboard", JValue.obj [])]
        none none none none ⟨200, .json (.obj [])⟩).1 =
      { method := "POST"
        url := (GrafanaAPI.mk "u" "t" true).url ++ "/api/dashboards/db"
        headers := (GrafanaAPI.mk "u" "t" true).authHeaders
        jsonBody := some (.obj (create_dashboard_payload
          [("dashboard", JValue.obj [])] none none none none))
        verify := (GrafanaAPI.mk "u" "t" true).verify }) :=
  ⟨Or.inr ⟨[], rfl, rfl⟩,
   C10_missing_title_raises ⟨"u", "t", true⟩ [("dashboard", JValue.obj [])]
     none none none none ⟨200, .json (.obj [])⟩ (Or.inr ⟨[], rfl, rfl⟩)⟩
